import Mathlib

/-!
Linux application wrapper (`gui/frontend/src/app-wrapper/linux/main.cpp`).

A shallow embedding of the GTK/WebKit wrapper.  The C++ functions of `main.cpp`
are state transformers over a `World`, which holds what the toolkit keeps
between calls (live widgets, parent/child links, signal connections, script
message channels) together with the ordered record of the toolkit calls the
program has issued (pure getters are not recorded).

The toolkit itself is outside the repository.  Its operations are modelled by
the smallest behaviour the program relies on:

* object constructors hand out a fresh handle and record the call;
* `g_signal_connect` stores the connection; a signal emission calls the
  connected functions, in connection order, with the instance, then the
  parameters of the signal, then the user data of the connection, and a C
  function reads its declared parameters positionally from that list;
* destroying a live widget removes it and its child from the live set and then
  emits `destroy` on them; a destruction request on anything else (null, an
  object that is not a widget, a widget already gone) is rejected by the
  toolkit and only recorded;
* logging and memory calls are recorded only.

Handlers run inside emissions, and an emission can happen inside a handler
(destroying the window inside `closeWebViewCb` emits `destroy`).  The handler
runner `invoke` therefore carries a fuel that bounds this nesting; two units
are enough for every path of this program, and the theorems about events hold
for every larger fuel.
-/

namespace AppWrapper

/-! ## Handles, callbacks and the call record -/

/-- Toolkit object handles.  `null` is `nullptr`; the other constructors tag
the kind of object behind the pointer. -/
inductive Ptr where
  | null
  | app (id : Nat)
  | widget (id : Nat)
  | manager (view : Nat)
  | value (id : Nat)
  deriving DecidableEq

/-- The application flags `main.cpp` uses. -/
inductive GApplicationFlags where
  | G_APPLICATION_DEFAULT_FLAGS
  deriving DecidableEq

/-- The functions of `main.cpp` that are passed to `g_signal_connect`. -/
inductive Callback where
  | destroyWindowCb
  | closeWebViewCb
  | handle_script_message
  | activate
  deriving DecidableEq

/-- The functions of `main.cpp` passed as a `GAsyncReadyCallback`. -/
inductive AsyncCallback where
  | web_view_javascript_finished
  deriving DecidableEq

/-- One toolkit call, with its arguments as the program passes them (and, for
constructors and getters, the handle returned). -/
inductive Call where
  | g_main_quit
  | g_print (text : String)
  | g_warning (text : String)
  | g_widget_destroy (widget : Ptr)
  | g_error_free
  | g_free
  | webkit_javascript_result_unref
  | webkit_web_view_evaluate_javascript (webView : Ptr) (script : String)
      (length : Int) (worldName sourceUri cancellable : Ptr)
      (callback : AsyncCallback) (userData : Ptr)
  | gtk_application_window_new (app : Ptr) (ret : Ptr)
  | gtk_window_set_title (window : Ptr) (title : String)
  | gtk_window_set_default_size (window : Ptr) (width height : Int)
  | webkit_web_view_new (ret : Ptr)
  | gtk_window_set_child (window child : Ptr)
  | webkit_web_view_load_uri (webView : Ptr) (uri : String)
  | g_signal_connect (inst : Ptr) (signal : String) (callback : Callback)
      (data : Ptr)
  | webkit_web_view_get_user_content_manager (webView : Ptr) (ret : Ptr)
  | webkit_user_content_manager_register_script_message_handler
      (manager : Ptr) (name : String) (worldName : String)
  | gtk_widget_show (widget : Ptr)
  | gtk_window_present (window : Ptr)
  | gtk_application_new (appId : String) (flags : GApplicationFlags)
      (ret : Ptr)
  | g_application_run (app : Ptr) (argc : Int) (argv : List String)
  | g_object_unref (object : Ptr)
  deriving DecidableEq

/-- A stored signal connection. -/
structure Conn where
  inst : Ptr
  signal : String
  callback : Callback
  data : Ptr
  deriving DecidableEq

/-- What the toolkit holds between calls, and the record of calls issued. -/
structure World where
  /-- The next unused object id. -/
  next : Nat
  /-- Ids of the widgets that exist. -/
  live : List Nat
  /-- Pairs `(parent, child)` set by `gtk_window_set_child`. -/
  children : List (Nat × Nat)
  /-- Signal connections, oldest first. -/
  conns : List Conn
  /-- Registered script message channels `(manager, name)`. -/
  channels : List (Ptr × String)
  /-- Toolkit calls issued so far, oldest first. -/
  calls : List Call
  deriving DecidableEq

/-- The world of a process that has not called the toolkit yet. -/
def World.init : World :=
  { next := 0, live := [], children := [], conns := [], channels := [],
    calls := [] }

/-- Append one call to the record. -/
def World.record (w : World) (c : Call) : World :=
  { w with calls := w.calls ++ [c] }

/-- Whether a pointer is a widget that currently exists. -/
def World.isLive (w : World) : Ptr → Bool
  | .widget i => decide (i ∈ w.live)
  | _ => false

/-- Whether a call writes to the log (`g_print` or `g_warning`). -/
def Call.isLog : Call → Bool
  | .g_print _ => true
  | .g_warning _ => true
  | _ => false

/-- Whether a call is an event-loop termination request. -/
def Call.isQuit : Call → Bool
  | .g_main_quit => true
  | _ => false

/-- Whether a call is a widget destruction request. -/
def Call.isDestroy : Call → Bool
  | .g_widget_destroy _ => true
  | _ => false

/-- Whether a call creates a top-level window. -/
def Call.isWindowNew : Call → Bool
  | .gtk_application_window_new _ _ => true
  | _ => false

/-- Whether a call creates a web view. -/
def Call.isWebViewNew : Call → Bool
  | .webkit_web_view_new _ => true
  | _ => false

/-- Whether a call starts a navigation. -/
def Call.isLoadUri : Call → Bool
  | .webkit_web_view_load_uri _ _ => true
  | _ => false

/-- Whether a call connects a signal handler. -/
def Call.isConnect : Call → Bool
  | .g_signal_connect _ _ _ _ => true
  | _ => false

/-! ## Toolkit operations -/

/-- The handler runner used while a signal is emitted. -/
abbrev Runner := Callback → List Ptr → World → World

/-- Emit `signal` on `inst`: every function connected to it runs, in
connection order, on `inst`, the signal parameters and its user data. -/
def emit (run : Runner) (inst : Ptr) (signal : String) (params : List Ptr)
    (w : World) : World :=
  (w.conns.filter (fun c => decide (c.inst = inst ∧ c.signal = signal))).foldl
    (fun acc c => run c.callback (inst :: params ++ [c.data]) acc) w

/-- The widgets that go away with widget `i`: itself and its children. -/
def World.doomed (w : World) (i : Nat) : List Nat :=
  i :: (w.children.filter (fun pc => decide (pc.1 = i))).map Prod.snd

/-- Toolkit-side destruction of an object.  A live widget is removed together
with its child and `destroy` is emitted on each of them; any other pointer is
left alone. -/
def destroyWidget (run : Runner) (p : Ptr) (w : World) : World :=
  match p with
  | .widget i =>
    if i ∈ w.live then
      let gone := w.doomed i
      gone.foldl (fun acc j => emit run (.widget j) "destroy" [] acc)
        { w with live := w.live.filter (fun j => decide (j ∉ gone)) }
    else w
  | _ => w

def g_main_quit (w : World) : World :=
  w.record .g_main_quit

def g_print (text : String) (w : World) : World :=
  w.record (.g_print text)

def g_warning (text : String) (w : World) : World :=
  w.record (.g_warning text)

def g_widget_destroy (run : Runner) (widget : Ptr) (w : World) : World :=
  destroyWidget run widget (w.record (.g_widget_destroy widget))

def g_signal_connect (inst : Ptr) (signal : String) (callback : Callback)
    (data : Ptr) (w : World) : World :=
  { w.record (.g_signal_connect inst signal callback data) with
    conns := w.conns ++ [⟨inst, signal, callback, data⟩] }

def gtk_application_new (appId : String) (flags : GApplicationFlags)
    (w : World) : Ptr × World :=
  (.app w.next,
    { w.record (.gtk_application_new appId flags (.app w.next)) with
      next := w.next + 1 })

def gtk_application_window_new (app : Ptr) (w : World) : Ptr × World :=
  (.widget w.next,
    { w.record (.gtk_application_window_new app (.widget w.next)) with
      next := w.next + 1, live := w.live ++ [w.next] })

def webkit_web_view_new (w : World) : Ptr × World :=
  (.widget w.next,
    { w.record (.webkit_web_view_new (.widget w.next)) with
      next := w.next + 1, live := w.live ++ [w.next] })

def gtk_window_set_title (window : Ptr) (title : String) (w : World) : World :=
  w.record (.gtk_window_set_title window title)

def gtk_window_set_default_size (window : Ptr) (width height : Int)
    (w : World) : World :=
  w.record (.gtk_window_set_default_size window width height)

/-- Sets the single child of a window, replacing a child set before. -/
def gtk_window_set_child (window child : Ptr) (w : World) : World :=
  match window, child with
  | .widget p, .widget c =>
    { w.record (.gtk_window_set_child window child) with
      children := w.children.filter (fun pc => decide (pc.1 ≠ p)) ++ [(p, c)] }
  | _, _ => w.record (.gtk_window_set_child window child)

def webkit_web_view_load_uri (webView : Ptr) (uri : String) (w : World) :
    World :=
  w.record (.webkit_web_view_load_uri webView uri)

/-- The content manager of a web view is the one object tied to that view. -/
def webkit_web_view_get_user_content_manager (webView : Ptr) (w : World) :
    Ptr × World :=
  let m : Ptr := match webView with
    | .widget v => .manager v
    | _ => .null
  (m, w.record (.webkit_web_view_get_user_content_manager webView m))

def webkit_user_content_manager_register_script_message_handler
    (manager : Ptr) (name worldName : String) (w : World) : World :=
  { w.record (.webkit_user_content_manager_register_script_message_handler
      manager name worldName) with
    channels := w.channels ++ [(manager, name)] }

def gtk_widget_show (widget : Ptr) (w : World) : World :=
  w.record (.gtk_widget_show widget)

def gtk_window_present (window : Ptr) (w : World) : World :=
  w.record (.gtk_window_present window)

def g_object_unref (object : Ptr) (w : World) : World :=
  w.record (.g_object_unref object)

/-! ## The functions of `main.cpp` -/

/-- Source `main.cpp:31-34`: requests termination of the event loop, then
prints. -/
def destroyWindowCb (_widget _window : Ptr) (w : World) : World :=
  let w := g_main_quit w
  g_print "Received message from JavaScript" w

/-- Source `main.cpp:38-42`: destroys its second argument, prints, returns
`TRUE`.  The runner is the one of the emission this handler runs in. -/
def closeWebViewCb (run : Runner) (_webView window : Ptr) (w : World) :
    World × Bool :=
  let w := g_widget_destroy run window w
  let w := g_print "Received message from JavaScript" w
  (w, true)

/-- Source `main.cpp:46-51`: destroys its second argument, prints, returns
`TRUE`. -/
def handle_script_message (run : Runner) (_cm window : Ptr) (w : World) :
    World × Bool :=
  let w := g_widget_destroy run window w
  let w := g_print "Received message from JavaScript" w
  (w, true)

/-- Source `main.cpp:96-128`. -/
def activate (app _data : Ptr) (w : World) : World :=
  let (window, w) := gtk_application_window_new app w
  let w := gtk_window_set_title window "NPC" w
  let w := gtk_window_set_default_size window 800 600 w
  let (webView, w) := webkit_web_view_new w
  let w := gtk_window_set_child window webView w
  let w := webkit_web_view_load_uri webView "http://localhost:3000/" w
  let w := g_signal_connect window "destroy" .destroyWindowCb .null w
  let w := g_signal_connect webView "close" .closeWebViewCb window w
  let (manager, w) := webkit_web_view_get_user_content_manager webView w
  let w := g_signal_connect manager "script-message-received::command"
    .handle_script_message .null w
  let w := webkit_user_content_manager_register_script_message_handler
    manager "command" "main" w
  let w := gtk_widget_show window w
  gtk_window_present window w

/-- Run a connected function on the argument list of an emission: each
function reads its two declared parameters from the first two arguments.  The
fuel bounds the nesting of emissions inside handlers; without fuel the
handler is not run. -/
def invoke : Nat → Runner
  | 0, _, _, w => w
  | _ + 1, .destroyWindowCb, args, w =>
    destroyWindowCb (args.getD 0 .null) (args.getD 1 .null) w
  | n + 1, .closeWebViewCb, args, w =>
    (closeWebViewCb (invoke n) (args.getD 0 .null) (args.getD 1 .null) w).1
  | n + 1, .handle_script_message, args, w =>
    (handle_script_message (invoke n) (args.getD 0 .null)
      (args.getD 1 .null) w).1
  | _ + 1, .activate, args, w =>
    activate (args.getD 0 .null) (args.getD 1 .null) w

/-! ## Script evaluation -/

/-- The error object an evaluation can finish with. -/
structure GError where
  message : String
  deriving DecidableEq

/-- A script value as the engine hands it over: whether it is a string, its
string conversion, and the message of the exception pending in its context,
if there is one. -/
structure JSCValue where
  isString : Bool
  text : String
  exception : Option String
  deriving DecidableEq

/-- What `webkit_web_view_evaluate_javascript_finish` yields for a finished
evaluation: a value, or no value and an error. -/
inductive AsyncResult where
  | value (v : JSCValue)
  | error (e : GError)
  deriving DecidableEq

def jsc_value_is_string (v : JSCValue) : Bool := v.isString

def jsc_value_to_string (v : JSCValue) : String := v.text

/-- The exception pending in the context of a value
(`jsc_context_get_exception (jsc_value_get_context value)`). -/
def jsc_context_get_exception (v : JSCValue) : Option String := v.exception

def g_error_free (w : World) : World :=
  w.record .g_error_free

def g_free (w : World) : World :=
  w.record .g_free

def webkit_javascript_result_unref (w : World) : World :=
  w.record .webkit_javascript_result_unref

def webkit_web_view_evaluate_javascript (webView : Ptr) (script : String)
    (length : Int) (worldName sourceUri cancellable : Ptr)
    (callback : AsyncCallback) (userData : Ptr) (w : World) : World :=
  w.record (.webkit_web_view_evaluate_javascript webView script length
    worldName sourceUri cancellable callback userData)

/-- Source `main.cpp:55-80`.  The argument `result` stands for what
`webkit_web_view_evaluate_javascript_finish` yields on the asynchronous
result the callback receives. -/
def web_view_javascript_finished (_object : Ptr) (result : AsyncResult)
    (_user_data : Ptr) (w : World) : World :=
  match result with
  | .error error =>
    let w := g_warning ("Error running javascript: " ++ error.message) w
    g_error_free w
  | .value value =>
    let w :=
      if jsc_value_is_string value then
        let str_value := jsc_value_to_string value
        let w :=
          match jsc_context_get_exception value with
          | some message => g_warning ("Error running javascript: " ++ message) w
          | none => g_print ("Script result: " ++ str_value ++ "\n") w
        g_free w
      else
        g_warning "Error running javascript: unexpected return value" w
    webkit_javascript_result_unref w

/-- Source `main.cpp:84-92`.  The script is the format string of
`g_strdup_printf` with the link id in place of `%s`. -/
def web_view_get_link_url (web_view : Ptr) (link_id : String) (w : World) :
    World :=
  let script :=
    "window.document.getElementById(\x27" ++ link_id ++ "\x27).href;"
  let w := webkit_web_view_evaluate_javascript web_view script (-1) .null
    .null .null .web_view_javascript_finished .null w
  g_free w

/-! ## The event loop and `main` -/

/-- What reaches the application from outside while the loop runs. -/
inductive Event where
  /-- The user closes a window. -/
  | windowClose (window : Ptr)
  /-- The page asks for its view to be closed. -/
  | surfaceClose (webView : Ptr)
  /-- The page posts a message with some payload on a named channel. -/
  | scriptMessage (manager : Ptr) (name : String) (payload : Nat)
  deriving DecidableEq

/-- Whether a content manager belongs to a view that exists. -/
def World.managerLive (w : World) : Ptr → Bool
  | .manager v => decide (v ∈ w.live)
  | _ => false

/-- The reaction of the toolkit to one event.  Closing a window destroys it; a
close request of a view that exists emits `close` on it; a message on a
registered channel of an existing view emits `script-message-received` with
the channel name as detail and the message value as the signal parameter. -/
def deliver (run : Runner) : Event → World → World
  | .windowClose window, w => destroyWidget run window w
  | .surfaceClose webView, w =>
    if w.isLive webView then emit run webView "close" [] w else w
  | .scriptMessage manager name payload, w =>
    if w.managerLive manager && decide ((manager, name) ∈ w.channels) then
      emit run manager ("script-message-received::" ++ name) [.value payload] w
    else w

/-- Whether event-loop termination has been requested. -/
def World.quitRequested (w : World) : Bool :=
  w.calls.any Call.isQuit

/-- Dispatch events in order until termination has been requested. -/
def runLoop (run : Runner) : List Event → World → World
  | [], w => w
  | ev :: rest, w =>
    if w.quitRequested then w else runLoop run rest (deliver run ev w)

/-- The part of a run that the program does not decide: the events that
arrive and the status the run call of the toolkit reports. -/
structure Env where
  events : List Event
  status : Int

/-- The run call of the toolkit: activates the application once, dispatches
the events and reports the status of the toolkit. -/
def g_application_run (fuel : Nat) (env : Env) (app : Ptr) (argc : Int)
    (argv : List String) (w : World) : World × Int :=
  let w := w.record (.g_application_run app argc argv)
  let w := emit (invoke fuel) app "activate" [] w
  let w := runLoop (invoke fuel) env.events w
  (w, env.status)

/-- Source `main.cpp:132-140`, started in the initial world. -/
def main (fuel : Nat) (env : Env) (argc : Int) (argv : List String) :
    World × Int :=
  let (app, w) := gtk_application_new "com.example.GtkApplication"
    .G_APPLICATION_DEFAULT_FLAGS World.init
  let w := g_signal_connect app "activate" .activate .null w
  let (w, status) := g_application_run fuel env app argc argv w
  let w := g_object_unref app w
  (w, status)

/-! ## Observations on a run -/

/-- The calls recorded in `after` beyond those already recorded in `before`. -/
def World.callsSince (after before : World) : List Call :=
  after.calls.drop before.calls.length

/-- The log entries written between `before` and `after`. -/
def World.logSince (after before : World) : List Call :=
  (after.callsSince before).filter Call.isLog

/-- Whether a call is one of the three that the handlers other than
`activate` issue: a termination request, a print, a widget destruction. -/
def Call.isTeardown : Call → Bool
  | .g_main_quit => true
  | .g_print _ => true
  | .g_widget_destroy _ => true
  | _ => false

/-- The world in which the loop of `main` starts dispatching events, for any
fuel that lets `activate` run: application created, `activate` connected, the
run call recorded, the application activated once. -/
def World.loopStart (argc : Int) (argv : List String) : World :=
  activate (.app 0) .null
    ((g_signal_connect (.app 0) "activate" .activate .null
      (gtk_application_new "com.example.GtkApplication"
        .G_APPLICATION_DEFAULT_FLAGS World.init).2).record
      (.g_application_run (.app 0) argc argv))

/-- A world has the toolkit state of the loop start: the same handles,
widgets, child links, connections and channels, after any history of calls. -/
def World.Started (w : World) : Prop :=
  w.next = (World.loopStart 0 []).next ∧
  w.live = (World.loopStart 0 []).live ∧
  w.children = (World.loopStart 0 []).children ∧
  w.conns = (World.loopStart 0 []).conns ∧
  w.channels = (World.loopStart 0 []).channels

/-- The world `v` continues `w`: the record only grew, no handle was reused
and no widget of `w` that was gone came back. -/
def World.Extends (w v : World) : Prop :=
  w.calls <+: v.calls ∧ w.next ≤ v.next ∧
    ∀ i, i < w.next → i ∈ v.live → i ∈ w.live

/-- The function `activate` is connected to no signal but `activate`. -/
def World.ActivateOnce (w : World) : Prop :=
  ∀ c ∈ w.conns, c.callback = .activate → c.signal = "activate"

/-- From `w` to `v` nothing was set up: connections and channels are the
same and the calls added are teardown calls. -/
def World.Quiet (w v : World) : Prop :=
  v.conns = w.conns ∧ v.channels = w.channels ∧
    ∃ l, v.calls = w.calls ++ l ∧ ∀ c ∈ l, c.isTeardown = true

/-- The calls recorded when the `command` handler runs once on each of the
given message values, in order. -/
def messageCalls : List Nat → List Call
  | [] => []
  | p :: ps =>
    .g_widget_destroy (.value p) ::
      .g_print "Received message from JavaScript" :: messageCalls ps

/-- The events of a page that posts one `command` message per payload on the
channel of the content manager of web view 2. -/
def commandEvents (payloads : List Nat) : List Event :=
  payloads.map (Event.scriptMessage (.manager 2) "command")

/-! ## Basic facts about the record -/

theorem callsSince_of_calls_eq {w v : World} {l : List Call}
    (h : v.calls = w.calls ++ l) : v.callsSince w = l := by
  simp [World.callsSince, h]

theorem web_view_javascript_finished_calls (object user_data : Ptr)
    (result : AsyncResult) (w : World) :
    (web_view_javascript_finished object result user_data w).calls =
      w.calls ++
        (match result with
          | .error e =>
            [.g_warning ("Error running javascript: " ++ e.message),
              .g_error_free]
          | .value ⟨true, _, some m⟩ =>
            [.g_warning ("Error running javascript: " ++ m), .g_free,
              .webkit_javascript_result_unref]
          | .value ⟨true, s, none⟩ =>
            [.g_print ("Script result: " ++ s ++ "\n"), .g_free,
              .webkit_javascript_result_unref]
          | .value ⟨false, _, _⟩ =>
            [.g_warning "Error running javascript: unexpected return value",
              .webkit_javascript_result_unref]) := by
  rcases result with ⟨⟨_ | _, s, _ | m⟩⟩ | e <;>
    simp [web_view_javascript_finished, jsc_value_is_string,
      jsc_value_to_string, jsc_context_get_exception, g_warning, g_print,
      g_free, g_error_free, webkit_javascript_result_unref, World.record]

/-! ## The world after `activate` and at the start of the loop -/

theorem activate_eq (app data : Ptr) (w : World) :
    activate app data w =
      { next := w.next + 2
        live := w.live ++ [w.next, w.next + 1]
        children :=
          w.children.filter (fun pc => decide (pc.1 ≠ w.next)) ++
            [(w.next, w.next + 1)]
        conns := w.conns ++
          [⟨.widget w.next, "destroy", .destroyWindowCb, .null⟩,
            ⟨.widget (w.next + 1), "close", .closeWebViewCb, .widget w.next⟩,
            ⟨.manager (w.next + 1), "script-message-received::command",
              .handle_script_message, .null⟩]
        channels := w.channels ++ [(.manager (w.next + 1), "command")]
        calls := w.calls ++
          [.gtk_application_window_new app (.widget w.next),
            .gtk_window_set_title (.widget w.next) "NPC",
            .gtk_window_set_default_size (.widget w.next) 800 600,
            .webkit_web_view_new (.widget (w.next + 1)),
            .gtk_window_set_child (.widget w.next) (.widget (w.next + 1)),
            .webkit_web_view_load_uri (.widget (w.next + 1))
              "http://localhost:3000/",
            .g_signal_connect (.widget w.next) "destroy" .destroyWindowCb
              .null,
            .g_signal_connect (.widget (w.next + 1)) "close" .closeWebViewCb
              (.widget w.next),
            .webkit_web_view_get_user_content_manager (.widget (w.next + 1))
              (.manager (w.next + 1)),
            .g_signal_connect (.manager (w.next + 1))
              "script-message-received::command" .handle_script_message .null,
            .webkit_user_content_manager_register_script_message_handler
              (.manager (w.next + 1)) "command" "main",
            .gtk_widget_show (.widget w.next),
            .gtk_window_present (.widget w.next)] } := by
  simp [activate, gtk_application_window_new, gtk_window_set_title,
    gtk_window_set_default_size, webkit_web_view_new, gtk_window_set_child,
    webkit_web_view_load_uri, g_signal_connect,
    webkit_web_view_get_user_content_manager,
    webkit_user_content_manager_register_script_message_handler,
    gtk_widget_show, gtk_window_present, World.record]

theorem loopStart_eq (argc : Int) (argv : List String) :
    World.loopStart argc argv =
      { next := 3
        live := [1, 2]
        children := [(1, 2)]
        conns :=
          [⟨.app 0, "activate", .activate, .null⟩,
            ⟨.widget 1, "destroy", .destroyWindowCb, .null⟩,
            ⟨.widget 2, "close", .closeWebViewCb, .widget 1⟩,
            ⟨.manager 2, "script-message-received::command",
              .handle_script_message, .null⟩]
        channels := [(.manager 2, "command")]
        calls :=
          [.gtk_application_new "com.example.GtkApplication"
              .G_APPLICATION_DEFAULT_FLAGS (.app 0),
            .g_signal_connect (.app 0) "activate" .activate .null,
            .g_application_run (.app 0) argc argv,
            .gtk_application_window_new (.app 0) (.widget 1),
            .gtk_window_set_title (.widget 1) "NPC",
            .gtk_window_set_default_size (.widget 1) 800 600,
            .webkit_web_view_new (.widget 2),
            .gtk_window_set_child (.widget 1) (.widget 2),
            .webkit_web_view_load_uri (.widget 2) "http://localhost:3000/",
            .g_signal_connect (.widget 1) "destroy" .destroyWindowCb .null,
            .g_signal_connect (.widget 2) "close" .closeWebViewCb (.widget 1),
            .webkit_web_view_get_user_content_manager (.widget 2)
              (.manager 2),
            .g_signal_connect (.manager 2) "script-message-received::command"
              .handle_script_message .null,
            .webkit_user_content_manager_register_script_message_handler
              (.manager 2) "command" "main",
            .gtk_widget_show (.widget 1),
            .gtk_window_present (.widget 1)] } := rfl

theorem started_iff (w : World) :
    w.Started ↔
      w.next = 3 ∧ w.live = [1, 2] ∧ w.children = [(1, 2)] ∧
      w.conns =
        [⟨.app 0, "activate", .activate, .null⟩,
          ⟨.widget 1, "destroy", .destroyWindowCb, .null⟩,
          ⟨.widget 2, "close", .closeWebViewCb, .widget 1⟩,
          ⟨.manager 2, "script-message-received::command",
            .handle_script_message, .null⟩] ∧
      w.channels = [(.manager 2, "command")] := by
  simp only [World.Started, loopStart_eq]

theorem started_loopStart (argc : Int) (argv : List String) :
    (World.loopStart argc argv).Started := by
  rw [started_iff, loopStart_eq]
  exact ⟨rfl, rfl, rfl, rfl, rfl⟩


/-! ## The record only grows and destroyed widgets stay destroyed -/

theorem extends_refl (w : World) : w.Extends w :=
  ⟨List.prefix_refl _, Nat.le_refl _, fun _ _ h => h⟩

theorem extends_trans {u v w : World} (h₁ : u.Extends v) (h₂ : v.Extends w) :
    u.Extends w :=
  ⟨h₁.1.trans h₂.1, Nat.le_trans h₁.2.1 h₂.2.1,
    fun i hi hw => h₁.2.2 i hi (h₂.2.2 i (Nat.lt_of_lt_of_le hi h₁.2.1) hw)⟩

theorem extends_record (w : World) (c : Call) : w.Extends (w.record c) :=
  ⟨List.prefix_append _ _, Nat.le_refl _, fun _ _ h => h⟩

theorem foldl_extends {α : Type} (f : World → α → World)
    (hf : ∀ (v : World) (a : α), v.Extends (f v a)) (l : List α) (w : World) :
    w.Extends (l.foldl f w) := by
  induction l generalizing w with
  | nil => exact extends_refl w
  | cons a l ih => exact extends_trans (hf w a) (ih (f w a))

theorem emit_extends (run : Runner)
    (hrun : ∀ cb args (v : World), v.Extends (run cb args v)) (inst : Ptr)
    (signal : String) (params : List Ptr) (w : World) :
    w.Extends (emit run inst signal params w) := by
  unfold emit
  exact foldl_extends _ (fun v (c : Conn) => hrun c.callback _ v) _ w

theorem destroyWidget_extends (run : Runner)
    (hrun : ∀ cb args (v : World), v.Extends (run cb args v)) (p : Ptr) (w : World) :
    w.Extends (destroyWidget run p w) := by
  cases p with
  | widget i =>
    by_cases h : i ∈ w.live
    · simp only [destroyWidget, h, if_true]
      refine extends_trans ?_ (foldl_extends _
        (fun v j => emit_extends run hrun (.widget j) "destroy" [] v) _ _)
      exact ⟨List.prefix_refl _, Nat.le_refl _,
        fun _ _ h => List.mem_of_mem_filter h⟩
    · simp only [destroyWidget, h, if_false]
      exact extends_refl w
  | _ => exact extends_refl w

theorem g_widget_destroy_extends (run : Runner)
    (hrun : ∀ cb args (v : World), v.Extends (run cb args v)) (p : Ptr) (w : World) :
    w.Extends (g_widget_destroy run p w) :=
  extends_trans (extends_record w _) (destroyWidget_extends run hrun p _)

theorem activate_extends (app data : Ptr) (w : World) :
    w.Extends (activate app data w) := by
  rw [activate_eq]
  refine ⟨List.prefix_append _ _, Nat.le_add_right _ _, fun i hi hm => ?_⟩
  simp only [List.mem_append, List.mem_cons, List.mem_singleton,
    List.not_mem_nil, or_false] at hm
  rcases hm with hm | hm | hm
  · exact hm
  · omega
  · omega

theorem invoke_extends (n : Nat) (cb : Callback) (args : List Ptr)
    (w : World) : w.Extends (invoke n cb args w) := by
  induction n generalizing cb args w with
  | zero => exact extends_refl w
  | succ n ih =>
    cases cb with
    | destroyWindowCb =>
      exact extends_trans (extends_record w _) (extends_record _ _)
    | closeWebViewCb =>
      exact extends_trans (g_widget_destroy_extends _ ih _ w)
        (extends_record _ _)
    | handle_script_message =>
      exact extends_trans (g_widget_destroy_extends _ ih _ w)
        (extends_record _ _)
    | activate => exact activate_extends _ _ w

/-! ## Handlers other than `activate` set nothing up -/

theorem quiet_refl (w : World) : w.Quiet w :=
  ⟨rfl, rfl, [], by simp, by simp⟩

theorem quiet_trans {u v w : World} (h₁ : u.Quiet v) (h₂ : v.Quiet w) :
    u.Quiet w := by
  obtain ⟨c₁, d₁, l₁, e₁, t₁⟩ := h₁
  obtain ⟨c₂, d₂, l₂, e₂, t₂⟩ := h₂
  refine ⟨c₂.trans c₁, d₂.trans d₁, l₁ ++ l₂, ?_, ?_⟩
  · rw [e₂, e₁, List.append_assoc]
  · intro c hc
    rcases List.mem_append.1 hc with hc | hc
    · exact t₁ c hc
    · exact t₂ c hc

theorem quiet_activateOnce {w v : World} (h : w.Quiet v)
    (hw : w.ActivateOnce) : v.ActivateOnce := by
  intro c hc
  rw [h.1] at hc
  exact hw c hc

theorem quiet_record (w : World) (c : Call) (hc : c.isTeardown = true) :
    w.Quiet (w.record c) :=
  ⟨rfl, rfl, [c], rfl, by simpa using hc⟩

theorem quiet_of_fields {w v : World} (hc : v.conns = w.conns)
    (hch : v.channels = w.channels) (hcalls : v.calls = w.calls) :
    w.Quiet v :=
  ⟨hc, hch, [], by simp [hcalls], by simp⟩

theorem foldl_quiet {α : Type} (f : World → α → World) (l : List α)
    (hf : ∀ (v : World) (a : α), a ∈ l → v.ActivateOnce → v.Quiet (f v a))
    (w : World) (hw : w.ActivateOnce) : w.Quiet (l.foldl f w) := by
  induction l generalizing w with
  | nil => exact quiet_refl w
  | cons a l ih =>
    have h₁ : w.Quiet (f w a) := hf w a (List.mem_cons_self a l) hw
    exact quiet_trans h₁
      (ih (fun v b hb hv => hf v b (List.mem_cons_of_mem a hb) hv) (f w a)
        (quiet_activateOnce h₁ hw))

theorem emit_quiet (run : Runner)
    (hrun : ∀ cb args (v : World), v.ActivateOnce → cb ≠ .activate →
      v.Quiet (run cb args v))
    (inst : Ptr) (signal : String) (params : List Ptr) (w : World)
    (hw : w.ActivateOnce) (hs : signal ≠ "activate") :
    w.Quiet (emit run inst signal params w) := by
  unfold emit
  have hl : ∀ c ∈ w.conns.filter
      (fun c => decide (c.inst = inst ∧ c.signal = signal)),
      c.callback ≠ .activate := by
    intro c hc hcb
    obtain ⟨hm, hd⟩ := List.mem_filter.1 hc
    have hd := of_decide_eq_true hd
    exact hs (hd.2 ▸ hw c hm hcb)
  generalize w.conns.filter
    (fun c => decide (c.inst = inst ∧ c.signal = signal)) = l at hl
  induction l generalizing w with
  | nil => exact quiet_refl w
  | cons a l ih =>
    have h₁ := hrun a.callback (inst :: params ++ [a.data]) w hw
      (hl a (List.mem_cons_self a l))
    exact quiet_trans h₁
      (ih _ (quiet_activateOnce h₁ hw) (fun c hc => hl c (List.mem_cons_of_mem a hc)))

theorem destroyWidget_quiet (run : Runner)
    (hrun : ∀ cb args (v : World), v.ActivateOnce → cb ≠ .activate →
      v.Quiet (run cb args v))
    (p : Ptr) (w : World) (hw : w.ActivateOnce) :
    w.Quiet (destroyWidget run p w) := by
  cases p with
  | widget i =>
    by_cases h : i ∈ w.live
    · simp only [destroyWidget, h, if_true]
      exact quiet_trans (quiet_of_fields rfl rfl rfl) (foldl_quiet _ _
        (fun v j _ hv => emit_quiet run hrun (.widget j) "destroy" [] v hv
          (by decide)) _ hw)
    · simp only [destroyWidget, h, if_false]
      exact quiet_refl w
  | _ => exact quiet_refl w

theorem g_widget_destroy_quiet (run : Runner)
    (hrun : ∀ cb args (v : World), v.ActivateOnce → cb ≠ .activate →
      v.Quiet (run cb args v))
    (p : Ptr) (w : World) (hw : w.ActivateOnce) :
    w.Quiet (g_widget_destroy run p w) :=
  have h₀ := quiet_record w (.g_widget_destroy p) rfl
  quiet_trans h₀ (destroyWidget_quiet run hrun p _ (quiet_activateOnce h₀ hw))

theorem invoke_quiet (n : Nat) (cb : Callback) (args : List Ptr) (w : World)
    (hw : w.ActivateOnce) (hcb : cb ≠ .activate) :
    w.Quiet (invoke n cb args w) := by
  induction n generalizing cb args w with
  | zero => exact quiet_refl w
  | succ n ih =>
    cases cb with
    | destroyWindowCb =>
      exact quiet_trans (quiet_record w .g_main_quit rfl) (quiet_record _ _ rfl)
    | closeWebViewCb =>
      exact quiet_trans (g_widget_destroy_quiet _ ih _ w hw) (quiet_record _ _ rfl)
    | handle_script_message =>
      exact quiet_trans (g_widget_destroy_quiet _ ih _ w hw) (quiet_record _ _ rfl)
    | activate => exact absurd rfl hcb

theorem script_signal_ne_activate (name : String) :
    "script-message-received::" ++ name ≠ "activate" := by
  intro h
  have := congrArg String.data h
  simp [String.data_append] at this

theorem deliver_quiet (n : Nat) (ev : Event) (w : World)
    (hw : w.ActivateOnce) : w.Quiet (deliver (invoke n) ev w) := by
  have hrun := fun cb args v hv hcb => invoke_quiet n cb args v hv hcb
  cases ev with
  | windowClose window => exact destroyWidget_quiet _ hrun window w hw
  | surfaceClose webView =>
    simp only [deliver]
    split
    · exact emit_quiet _ hrun _ _ _ w hw (by decide)
    · exact quiet_refl w
  | scriptMessage manager name payload =>
    simp only [deliver]
    split
    · exact emit_quiet _ hrun _ _ _ w hw (script_signal_ne_activate name)
    · exact quiet_refl w

theorem runLoop_quiet (n : Nat) (events : List Event) (w : World)
    (hw : w.ActivateOnce) : w.Quiet (runLoop (invoke n) events w) := by
  induction events generalizing w with
  | nil => exact quiet_refl w
  | cons ev rest ih =>
    simp only [runLoop]
    split
    · exact quiet_refl w
    · have h₁ := deliver_quiet n ev w hw
      exact quiet_trans h₁ (ih _ (quiet_activateOnce h₁ hw))

theorem runLoop_extends (n : Nat) (events : List Event) (w : World) :
    w.Extends (runLoop (invoke n) events w) := by
  induction events generalizing w with
  | nil => exact extends_refl w
  | cons ev rest ih =>
    simp only [runLoop]
    split
    · exact extends_refl w
    · refine extends_trans ?_ (ih _)
      cases ev with
      | windowClose window =>
        exact destroyWidget_extends _ (invoke_extends n) window w
      | surfaceClose webView =>
        simp only [deliver]
        split
        · exact emit_extends _ (invoke_extends n) _ _ _ w
        · exact extends_refl w
      | scriptMessage manager name payload =>
        simp only [deliver]
        split
        · exact emit_extends _ (invoke_extends n) _ _ _ w
        · exact extends_refl w

theorem activateOnce_loopStart (argc : Int) (argv : List String) :
    (World.loopStart argc argv).ActivateOnce := by
  intro c hc hcb
  rw [loopStart_eq] at hc
  simp only [List.mem_cons, List.mem_singleton, List.not_mem_nil, or_false] at hc
  rcases hc with rfl | rfl | rfl | rfl
  · rfl
  · exact absurd hcb (by decide)
  · exact absurd hcb (by decide)
  · exact absurd hcb (by decide)

/-! ## Events delivered at the start of the loop -/

theorem main_eq (n : Nat) (env : Env) (argc : Int) (argv : List String) :
    main (n + 1) env argc argv =
      (g_object_unref (.app 0)
          (runLoop (invoke (n + 1)) env.events (World.loopStart argc argv)),
        env.status) := rfl

theorem deliver_scriptMessage_started (n payload : Nat) (w : World)
    (h : w.Started) :
    deliver (invoke (n + 1)) (.scriptMessage (.manager 2) "command" payload) w
      = { w with calls := w.calls ++
            [.g_widget_destroy (.value payload),
              .g_print "Received message from JavaScript"] } := by
  obtain ⟨nx, lv, ch, cn, chn, cl⟩ := w
  obtain ⟨h1, h2, h3, h4, h5⟩ := (started_iff _).1 h
  simp only at h1 h2 h3 h4 h5
  subst h1 h2 h3 h4 h5
  simp [deliver, emit, invoke, handle_script_message, g_widget_destroy, destroyWidget, g_print,
    World.record, World.managerLive]

theorem deliver_windowClose_started (n : Nat) (w : World) (h : w.Started) :
    deliver (invoke (n + 1)) (.windowClose (.widget 1)) w
      = { w with
          live := []
          calls := w.calls ++
            [.g_main_quit, .g_print "Received message from JavaScript"] } := by
  obtain ⟨nx, lv, ch, cn, chn, cl⟩ := w
  obtain ⟨h1, h2, h3, h4, h5⟩ := (started_iff _).1 h
  simp only at h1 h2 h3 h4 h5
  subst h1 h2 h3 h4 h5
  simp [deliver, emit, invoke, destroyWindowCb, g_main_quit, destroyWidget, g_print,
    World.record, World.doomed]

theorem deliver_surfaceClose_started (n : Nat) (w : World) (h : w.Started) :
    deliver (invoke (n + 2)) (.surfaceClose (.widget 2)) w
      = { w with
          live := []
          calls := w.calls ++
            [.g_widget_destroy (.widget 1), .g_main_quit,
              .g_print "Received message from JavaScript",
              .g_print "Received message from JavaScript"] } := by
  obtain ⟨nx, lv, ch, cn, chn, cl⟩ := w
  obtain ⟨h1, h2, h3, h4, h5⟩ := (started_iff _).1 h
  simp only at h1 h2 h3 h4 h5
  subst h1 h2 h3 h4 h5
  simp [deliver, emit, invoke, closeWebViewCb, destroyWindowCb, g_main_quit, g_widget_destroy,
    destroyWidget, g_print, World.isLive,
    World.record, World.doomed]

/-! ## Script evaluation results (`web_view_javascript_finished`) -/

/-- C5: the log written by `web_view_javascript_finished` is fixed by the
outcome of the evaluation.  A string value `s` with no pending exception
gives the single entry `Script result: s`; an engine error gives the single
warning carrying the error message and no result line; a value that is not a
string gives the single fixed warning `unexpected return value`.  Whatever
the outcome, exactly one log entry is written. -/
theorem web_view_javascript_finished_log (object user_data : Ptr)
    (w : World) :
    (∀ s : String,
      (web_view_javascript_finished object (.value ⟨true, s, none⟩) user_data
        w).logSince w = [.g_print ("Script result: " ++ s ++ "\n")]) ∧
    (∀ e : GError,
      (web_view_javascript_finished object (.error e) user_data w).logSince w
        = [.g_warning ("Error running javascript: " ++ e.message)]) ∧
    (∀ (text : String) (exc : Option String),
      (web_view_javascript_finished object (.value ⟨false, text, exc⟩)
        user_data w).logSince w
        = [.g_warning "Error running javascript: unexpected return value"]) ∧
    (∀ result : AsyncResult,
      ((web_view_javascript_finished object result user_data w).logSince
        w).length = 1) := by
  refine ⟨fun s => ?_, fun e => ?_, fun text exc => ?_, fun result => ?_⟩
  · simp [World.logSince, callsSince_of_calls_eq
      (web_view_javascript_finished_calls object user_data _ w), Call.isLog]
  · simp [World.logSince, callsSince_of_calls_eq
      (web_view_javascript_finished_calls object user_data _ w), Call.isLog]
  · simp [World.logSince, callsSince_of_calls_eq
      (web_view_javascript_finished_calls object user_data _ w), Call.isLog]
  · rcases result with ⟨⟨_ | _, s, _ | m⟩⟩ | e <;>
      simp [World.logSince, callsSince_of_calls_eq
        (web_view_javascript_finished_calls object user_data _ w), Call.isLog]

/-- C6: when the value is a string and an exception is pending in its
context, the only log entry is the warning with the exception message; and
a `g_print` line is written exactly when the value is a string with no
pending exception, in which case it is the `Script result` line of that
string. -/
theorem web_view_javascript_finished_exception (object user_data : Ptr)
    (w : World) :
    (∀ s m : String,
      (web_view_javascript_finished object (.value ⟨true, s, some m⟩)
        user_data w).logSince w
        = [.g_warning ("Error running javascript: " ++ m)]) ∧
    (∀ (result : AsyncResult) (line : String),
      .g_print line ∈
          (web_view_javascript_finished object result user_data w).logSince w
        ↔ ∃ v : JSCValue, result = .value v ∧ v.isString = true ∧
            v.exception = none ∧
            line = "Script result: " ++ v.text ++ "\n") := by
  refine ⟨fun s m => ?_, fun result line => ?_⟩
  · simp [World.logSince, callsSince_of_calls_eq
      (web_view_javascript_finished_calls object user_data _ w), Call.isLog]
  · rcases result with ⟨⟨_ | _, s, _ | m⟩⟩ | e <;>
      simp [World.logSince, callsSince_of_calls_eq
        (web_view_javascript_finished_calls object user_data _ w), Call.isLog]

/-! ## The `command` message handler (`handle_script_message`) -/

theorem runLoop_messages (n : Nat) (payloads : List Nat) (w : World)
    (h : w.Started) (hq : w.quitRequested = false) :
    runLoop (invoke (n + 1))
        (payloads.map (Event.scriptMessage (.manager 2) "command")) w
      = { w with calls := w.calls ++ messageCalls payloads } := by
  induction payloads generalizing w with
  | nil => simp [runLoop, messageCalls]
  | cons p ps ih =>
    simp only [List.map, runLoop, hq, Bool.false_eq_true, if_false]
    rw [deliver_scriptMessage_started n p w h, ih]
    · simp [messageCalls]
    · exact (started_iff _).2 ((started_iff w).1 h)
    · simpa [World.quitRequested, Call.isQuit] using hq

theorem messageCalls_filter_isDestroy (payloads : List Nat) :
    (messageCalls payloads).filter Call.isDestroy =
      payloads.map (fun p => Call.g_widget_destroy (.value p)) := by
  induction payloads with
  | nil => rfl
  | cons p ps ih => simp [messageCalls, Call.isDestroy, ih]

theorem messageCalls_any_isQuit (payloads : List Nat) :
    (messageCalls payloads).any Call.isQuit = false := by
  induction payloads with
  | nil => rfl
  | cons p ps ih => simp [messageCalls, Call.isQuit, ih]

/-- C1: what the code does when the page posts `command` messages.  In a run
of `main` (any fuel of at least one, so that handlers run) in which the page
posts any number of messages with any payloads,
the handler is connected with null user data, it runs once per message and
each time requests the destruction of the message value it received as its
second argument; the window created by `activate` (widget 1) is still alive
at the end and no termination was requested.  The handler does return
`TRUE`, and called on the null user data it destroys nothing either. -/
theorem handle_script_message_leaves_window (n : Nat) (payloads : List Nat)
    (status argc : Int) (argv : List String) :
    Call.gtk_application_window_new (.app 0) (.widget 1) ∈
      (main (n + 1) ⟨commandEvents payloads, status⟩ argc argv).1.calls ∧
    (main (n + 1) ⟨commandEvents payloads, status⟩ argc argv).1.conns.filter
        (fun c => decide (c.callback = .handle_script_message)) =
      [⟨.manager 2, "script-message-received::command",
        .handle_script_message, .null⟩] ∧
    (main (n + 1) ⟨commandEvents payloads, status⟩ argc argv).1.calls.filter
        Call.isDestroy =
      payloads.map (fun p => Call.g_widget_destroy (.value p)) ∧
    (main (n + 1) ⟨commandEvents payloads, status⟩ argc argv).1.isLive
      (.widget 1) = true ∧
    (main (n + 1) ⟨commandEvents payloads, status⟩ argc
      argv).1.quitRequested = false ∧
    (∀ (run : Runner) (cm window : Ptr) (w : World),
      (handle_script_message run cm window w).2 = true) ∧
    (∀ (run : Runner) (cm : Ptr) (w : World),
      (handle_script_message run cm .null w).1.live = w.live) := by
  have hq : (World.loopStart argc argv).quitRequested = false := by
    rw [loopStart_eq]; rfl
  rw [main_eq]
  simp only [commandEvents]
  rw [runLoop_messages n payloads _ (started_loopStart argc argv) hq,
    loopStart_eq]
  refine ⟨?_, ?_, ?_, ?_, ?_, fun _ _ _ _ => rfl, fun _ _ _ => rfl⟩
  · simp [g_object_unref, World.record]
  · simp [g_object_unref, World.record]
  · simp [g_object_unref, World.record, List.filter_append,
      messageCalls_filter_isDestroy, Call.isDestroy]
  · simp [g_object_unref, World.record, World.isLive]
  · simp [g_object_unref, World.record, World.quitRequested,
      messageCalls_any_isQuit, Call.isQuit]

theorem window_destroy_not_mem_messageCalls (payloads : List Nat) :
    Call.g_widget_destroy (.widget 1) ∉ messageCalls payloads := by
  induction payloads with
  | nil => simp [messageCalls]
  | cons p ps ih => simp [messageCalls, ih]

/-- C2: what the code does over a sequence of `command` messages.  In a run
of `main` (any fuel of at least one) in which the page posts the messages
with the given payloads, the window created by `activate` (widget 1, alive
when the loop starts) is destroyed zero times: the live widgets at the end
are those of the loop start, and no `g_widget_destroy` call on the window is
in the record, which holds one `g_widget_destroy` call per message, each on
a message value.  The part of the claim about a send after destruction does
hold: once the window is destroyed (here by a user close), a further
`command` message changes nothing. -/
theorem command_messages_never_destroy_window (n : Nat)
    (payloads : List Nat) (status argc : Int) (argv : List String) :
    (World.loopStart argc argv).isLive (.widget 1) = true ∧
    (main (n + 1) ⟨commandEvents payloads, status⟩ argc argv).1.live =
      (World.loopStart argc argv).live ∧
    Call.g_widget_destroy (.widget 1) ∉
      (main (n + 1) ⟨commandEvents payloads, status⟩ argc argv).1.calls ∧
    ((main (n + 1) ⟨commandEvents payloads, status⟩ argc argv).1.calls.filter
      Call.isDestroy).length = payloads.length ∧
    (∀ p : Nat,
      deliver (invoke (n + 1)) (.scriptMessage (.manager 2) "command" p)
          (deliver (invoke (n + 1)) (.windowClose (.widget 1))
            (World.loopStart argc argv)) =
        deliver (invoke (n + 1)) (.windowClose (.widget 1))
          (World.loopStart argc argv)) := by
  have hq : (World.loopStart argc argv).quitRequested = false := by
    rw [loopStart_eq]; rfl
  have hw := window_destroy_not_mem_messageCalls payloads
  rw [main_eq]
  simp only [commandEvents]
  rw [runLoop_messages n payloads _ (started_loopStart argc argv) hq,
    deliver_windowClose_started n _ (started_loopStart argc argv),
    loopStart_eq]
  refine ⟨?_, ?_, ?_, ?_, fun p => ?_⟩
  · simp [World.isLive]
  · simp [g_object_unref, World.record]
  · simp [g_object_unref, World.record, hw]
  · simp [g_object_unref, World.record, List.filter_append,
      messageCalls_filter_isDestroy, Call.isDestroy]
  · simp [deliver, World.managerLive]

/-! ## Closing (`closeWebViewCb`, `destroyWindowCb`) -/

/-- A destruction request on a widget handle the world has handed out leaves
that widget not alive, whatever handlers run during the request. -/
theorem g_widget_destroy_kills (n i : Nat) (w : World) (hnext : i < w.next) :
    (g_widget_destroy (invoke n) (.widget i) w).isLive (.widget i) = false := by
  have hcases : ∀ v : World, v.next = w.next →
      (destroyWidget (invoke n) (.widget i) v).isLive (.widget i) = false := by
    intro v hv
    by_cases h : i ∈ v.live
    · simp only [destroyWidget, h, if_true]
      have hext := foldl_extends
        (fun acc j => emit (invoke n) (.widget j) "destroy" [] acc)
        (fun u j => emit_extends _ (invoke_extends n) (.widget j) "destroy" [] u)
        (v.doomed i)
        { v with live := v.live.filter (fun j => decide (j ∉ v.doomed i)) }
      have hnot : i ∉ (List.foldl
          (fun acc j => emit (invoke n) (.widget j) "destroy" [] acc)
          { v with live := v.live.filter (fun j => decide (j ∉ v.doomed i)) }
          (v.doomed i)).live := by
        intro hm
        have := hext.2.2 i (by simpa [hv] using hnext) hm
        simp [World.doomed] at this
      simpa [World.isLive] using hnot
    · simp [destroyWidget, h, World.isLive]
  exact hcases _ rfl

/-- For every fuel, view and world, `closeWebViewCb` called on a widget
handle the world has handed out returns `TRUE` in a world where that widget
is not alive. -/
theorem closeWebViewCb_kills (n i : Nat) (webView : Ptr) (w : World)
    (hnext : i < w.next) :
    (closeWebViewCb (invoke n) webView (.widget i) w).1.isLive (.widget i)
      = false ∧
    (closeWebViewCb (invoke n) webView (.widget i) w).2 = true := by
  refine ⟨?_, rfl⟩
  have h := g_widget_destroy_kills n i w hnext
  simpa [closeWebViewCb, g_print, World.record, World.isLive] using h

theorem closeWebViewCb_started (n : Nat) (webView : Ptr) (w : World)
    (h : w.Started) :
    closeWebViewCb (invoke (n + 1)) webView (.widget 1) w =
      ({ w with
          live := []
          calls := w.calls ++
            [.g_widget_destroy (.widget 1), .g_main_quit,
              .g_print "Received message from JavaScript",
              .g_print "Received message from JavaScript"] }, true) := by
  obtain ⟨nx, lv, ch, cn, chn, cl⟩ := w
  obtain ⟨h1, h2, h3, h4, h5⟩ := (started_iff _).1 h
  simp only at h1 h2 h3 h4 h5
  subst h1 h2 h3 h4 h5
  simp [emit, invoke, closeWebViewCb, destroyWindowCb, g_main_quit,
    g_widget_destroy, destroyWidget, g_print, World.record, World.doomed]

/-- C3: in every world with the toolkit state of the loop start (window
widget 1, web view widget 2, any history of calls), `closeWebViewCb` is the
one function connected to the `close` signal of the view, with the window as user
data; a close request of the view runs it on the view and the window; it
returns `TRUE`, and in the world it returns the window, alive before, is
destroyed: the `g_widget_destroy` call on the window is the first call it
records (followed by the termination request of the `destroy` handler and the
prints). -/
theorem closeWebViewCb_destroys_window (n : Nat) (w : World)
    (h : w.Started) :
    Call.gtk_application_window_new (.app 0) (.widget 1) ∈
      (World.loopStart 0 []).calls ∧
    Call.webkit_web_view_new (.widget 2) ∈ (World.loopStart 0 []).calls ∧
    w.conns.filter (fun c => decide (c.inst = .widget 2 ∧ c.signal = "close"))
      = [⟨.widget 2, "close", .closeWebViewCb, .widget 1⟩] ∧
    deliver (invoke (n + 2)) (.surfaceClose (.widget 2)) w =
      (closeWebViewCb (invoke (n + 1)) (.widget 2) (.widget 1) w).1 ∧
    (closeWebViewCb (invoke (n + 1)) (.widget 2) (.widget 1) w).2 = true ∧
    w.isLive (.widget 1) = true ∧
    (closeWebViewCb (invoke (n + 1)) (.widget 2) (.widget 1) w).1.isLive
      (.widget 1) = false ∧
    (closeWebViewCb (invoke (n + 1)) (.widget 2) (.widget 1) w).1.callsSince w
      = [.g_widget_destroy (.widget 1), .g_main_quit,
          .g_print "Received message from JavaScript",
          .g_print "Received message from JavaScript"] := by
  rw [closeWebViewCb_started n _ w h, deliver_surfaceClose_started n w h]
  obtain ⟨-, h2, -, h4, -⟩ := (started_iff _).1 h
  refine ⟨by rw [loopStart_eq]; simp, by rw [loopStart_eq]; simp, ?_, rfl, rfl,
    ?_, ?_, ?_⟩
  · rw [h4]; decide
  · simp [World.isLive, h2]
  · simp [World.isLive]
  · simp [World.callsSince]

/-- Witness for `closeWebViewCb_destroys_window`: the loop start of a run
with one argument. -/
theorem closeWebViewCb_destroys_window_witness :
    (World.loopStart 1 ["npc"]).Started ∧
    (deliver (invoke 2) (.surfaceClose (.widget 2))
      (World.loopStart 1 ["npc"])).isLive (.widget 1) = false :=
  ⟨started_loopStart 1 ["npc"], by
    have h := closeWebViewCb_destroys_window 0 (World.loopStart 1 ["npc"])
      (started_loopStart 1 ["npc"])
    rw [h.2.2.2.1]
    exact h.2.2.2.2.2.2.1⟩

/-- C4: `destroyWindowCb` records exactly one termination request and one
print, whatever its arguments and the world, and changes nothing else (it
destroys no widget).  In every world with the toolkit state of the loop
start it is the one function connected to a `destroy` signal, on the window
(widget 1); so when the user closes the window, the window is destroyed and
exactly one termination request is recorded, and no `g_widget_destroy`
call. -/
theorem destroyWindowCb_quits_once (n : Nat) (w : World) (h : w.Started) :
    (∀ (widget window : Ptr) (v : World),
      destroyWindowCb widget window v =
        { v with calls := v.calls ++
            [.g_main_quit, .g_print "Received message from JavaScript"] }) ∧
    w.conns.filter (fun c => decide (c.signal = "destroy")) =
      [⟨.widget 1, "destroy", .destroyWindowCb, .null⟩] ∧
    (deliver (invoke (n + 1)) (.windowClose (.widget 1)) w).isLive (.widget 1)
      = false ∧
    ((deliver (invoke (n + 1)) (.windowClose (.widget 1)) w).callsSince
        w).filter Call.isQuit = [.g_main_quit] ∧
    ((deliver (invoke (n + 1)) (.windowClose (.widget 1)) w).callsSince
        w).filter Call.isDestroy = [] := by
  rw [deliver_windowClose_started n w h]
  obtain ⟨-, -, -, h4, -⟩ := (started_iff _).1 h
  refine ⟨fun _ _ v => ?_, ?_, ?_, ?_, ?_⟩
  · simp [destroyWindowCb, g_main_quit, g_print, World.record]
  · rw [h4]; decide
  · simp [World.isLive]
  · simp [World.callsSince, Call.isQuit]
  · simp [World.callsSince, Call.isDestroy]

/-- Witness for `destroyWindowCb_quits_once`: the user closes the window at
the loop start of a run with one argument. -/
theorem destroyWindowCb_quits_once_witness :
    (World.loopStart 1 ["npc"]).Started ∧
    ((deliver (invoke 1) (.windowClose (.widget 1))
      (World.loopStart 1 ["npc"])).callsSince
        (World.loopStart 1 ["npc"])).filter Call.isQuit = [.g_main_quit] :=
  ⟨started_loopStart 1 ["npc"],
    (destroyWindowCb_quits_once 0 (World.loopStart 1 ["npc"])
      (started_loopStart 1 ["npc"])).2.2.2.1⟩

/-! ## Submitting a script (`web_view_get_link_url`) -/

/-- C7, as stated, fails: called on the text `a`, the function does not
submit `a` for evaluation; the one script it submits is the element lookup
built around `a`. -/
theorem web_view_get_link_url_wraps_text :
    (web_view_get_link_url (.widget 2) "a" World.init).calls =
      [.webkit_web_view_evaluate_javascript (.widget 2)
          "window.document.getElementById(\x27a\x27).href;" (-1) .null .null
          .null .web_view_javascript_finished .null,
        .g_free] ∧
    Call.webkit_web_view_evaluate_javascript (.widget 2) "a" (-1) .null .null
        .null .web_view_javascript_finished .null ∉
      (web_view_get_link_url (.widget 2) "a" World.init).calls := by
  decide

/-- C7, amended: for every view, link id and world, `web_view_get_link_url`
submits exactly one script, the text
`window.document.getElementById("<link_id>").href;` (with single quotes
around the id) built from the link id of the caller, with length `-1`, `web_view_javascript_finished` as completion
callback and null user data, then frees the script and returns: it writes no
log entry and changes nothing but the record. -/
theorem web_view_get_link_url_submits (web_view : Ptr) (link_id : String)
    (w : World) :
    web_view_get_link_url web_view link_id w =
      { w with calls := w.calls ++
          [.webkit_web_view_evaluate_javascript web_view
              ("window.document.getElementById(\x27" ++ link_id ++
                "\x27).href;")
              (-1) .null .null .null .web_view_javascript_finished .null,
            .g_free] } ∧
    (web_view_get_link_url web_view link_id w).logSince w = [] := by
  have key : web_view_get_link_url web_view link_id w =
      { w with calls := w.calls ++
          [.webkit_web_view_evaluate_javascript web_view
              ("window.document.getElementById(\x27" ++ link_id ++
                "\x27).href;")
              (-1) .null .null .null .web_view_javascript_finished .null,
            .g_free] } := by
    simp [web_view_get_link_url, webkit_web_view_evaluate_javascript, g_free,
      World.record]
  refine ⟨key, ?_⟩
  rw [key]
  simp [World.logSince, World.callsSince, Call.isLog]

/-! ## Start-up (`activate`, `main`) -/

theorem filter_teardown_eq_nil (p : Call → Bool)
    (hp : ∀ c, c.isTeardown = true → p c = false) (l : List Call)
    (hl : ∀ c ∈ l, c.isTeardown = true) : l.filter p = [] := by
  rw [List.filter_eq_nil_iff]
  intro c hc
  simp [hp c (hl c hc)]

theorem main_run_quiet (n : Nat) (env : Env) (argc : Int)
    (argv : List String) :
    ∃ l, (∀ c ∈ l, c.isTeardown = true) ∧
      (main (n + 1) env argc argv).1.calls =
        (World.loopStart argc argv).calls ++ l ++ [.g_object_unref (.app 0)] ∧
      (main (n + 1) env argc argv).1.conns =
        (World.loopStart argc argv).conns := by
  obtain ⟨hc, -, l, hl, ht⟩ := runLoop_quiet (n + 1) env.events
    (World.loopStart argc argv) (activateOnce_loopStart argc argv)
  refine ⟨l, ht, ?_, ?_⟩
  · rw [main_eq]
    simp [g_object_unref, World.record, hl]
  · rw [main_eq]
    simpa [g_object_unref, World.record] using hc

/-- C8: one run of `activate`, on any application and world, records exactly
one window creation and one web view creation, sets the title of that
window, and of no other, to `NPC` and its default size to 800 by 600, and
makes exactly these two widgets come alive.  In every run of `main`,
whatever events arrive, `activate` is connected exactly once, and the whole
record holds exactly one window creation and one web view creation. -/
theorem activate_creates_one_window (app data : Ptr) (w : World) (n : Nat)
    (env : Env) (argc : Int) (argv : List String) :
    ((activate app data w).callsSince w).filter Call.isWindowNew =
      [.gtk_application_window_new app (.widget w.next)] ∧
    ((activate app data w).callsSince w).filter Call.isWebViewNew =
      [.webkit_web_view_new (.widget (w.next + 1))] ∧
    (∀ (p : Ptr) (t : String),
      Call.gtk_window_set_title p t ∈ (activate app data w).callsSince w ↔
        p = .widget w.next ∧ t = "NPC") ∧
    (∀ (p : Ptr) (x y : Int),
      Call.gtk_window_set_default_size p x y ∈
          (activate app data w).callsSince w ↔
        p = .widget w.next ∧ x = 800 ∧ y = 600) ∧
    (activate app data w).live = w.live ++ [w.next, w.next + 1] ∧
    (main (n + 1) env argc argv).1.conns.filter
        (fun c => decide (c.callback = .activate)) =
      [⟨.app 0, "activate", .activate, .null⟩] ∧
    (main (n + 1) env argc argv).1.calls.filter Call.isWindowNew =
      [.gtk_application_window_new (.app 0) (.widget 1)] ∧
    (main (n + 1) env argc argv).1.calls.filter Call.isWebViewNew =
      [.webkit_web_view_new (.widget 2)] := by
  have hcs : (activate app data w).callsSince w = _ :=
    callsSince_of_calls_eq (congrArg World.calls (activate_eq app data w))
  obtain ⟨l, ht, hcalls, hconns⟩ := main_run_quiet n env argc argv
  have h₁ := filter_teardown_eq_nil Call.isWindowNew
    (fun c hc => by cases c <;> simp_all [Call.isTeardown, Call.isWindowNew])
    l ht
  have h₂ := filter_teardown_eq_nil Call.isWebViewNew
    (fun c hc => by cases c <;> simp_all [Call.isTeardown, Call.isWebViewNew])
    l ht
  refine ⟨?_, ?_, ?_, ?_, ?_, ?_, ?_, ?_⟩
  · rw [hcs]; simp [Call.isWindowNew]
  · rw [hcs]; simp [Call.isWebViewNew]
  · intro p t; rw [hcs]; simp
  · intro p x y; rw [hcs]; simp
  · rw [activate_eq]
  · rw [hconns, loopStart_eq]; rfl
  · rw [hcalls, loopStart_eq]
    simp [List.filter_append, h₁, Call.isWindowNew]
  · rw [hcalls, loopStart_eq]
    simp [List.filter_append, h₂, Call.isWebViewNew]

theorem main_unfold (fuel : Nat) (env : Env) (argc : Int)
    (argv : List String) :
    main fuel env argc argv =
      (g_object_unref (.app 0)
        (runLoop (invoke fuel) env.events
          (emit (invoke fuel) (.app 0) "activate" []
            { next := 1
              live := []
              children := []
              conns := [⟨.app 0, "activate", .activate, .null⟩]
              channels := []
              calls :=
                [.gtk_application_new "com.example.GtkApplication"
              .G_APPLICATION_DEFAULT_FLAGS (.app 0),
                  .g_signal_connect (.app 0) "activate" .activate .null,
                  .g_application_run (.app 0) argc argv] })),
        env.status) := rfl

theorem run_calls (fuel : Nat) (events : List Event) (app : Ptr)
    (w : World) :
    ∃ during : List Call,
      (g_object_unref app
        (runLoop (invoke fuel) events
          (emit (invoke fuel) app "activate" [] w))).calls =
        w.calls ++ during ++ [.g_object_unref app] := by
  obtain ⟨during, hd⟩ :=
    (extends_trans (emit_extends _ (invoke_extends fuel) app "activate" [] w)
      (runLoop_extends fuel events _)).1
  exact ⟨during, by simp [g_object_unref, World.record, ← hd]⟩

/-- C9: for every fuel, environment, `argc` and `argv`, `main` returns the
status the run call reported, and its record starts with the creation of
the application under the fixed identifier, then the connection of
`activate`, then the run call on that application with `argc` and `argv` as
given, and ends with the release of the application. -/
theorem main_returns_run_status (fuel : Nat) (env : Env) (argc : Int)
    (argv : List String) :
    (main fuel env argc argv).2 = env.status ∧
    ∃ during : List Call,
      (main fuel env argc argv).1.calls =
        [.gtk_application_new "com.example.GtkApplication"
              .G_APPLICATION_DEFAULT_FLAGS (.app 0),
          .g_signal_connect (.app 0) "activate" .activate .null,
          .g_application_run (.app 0) argc argv] ++ during ++
          [.g_object_unref (.app 0)] := by
  rw [main_unfold]
  exact ⟨rfl, run_calls fuel env.events (.app 0) _⟩

/-- C10: the calls `activate` records, on any application and world, are in
this order: window creation, title, default size, web view creation,
attaching the view as child of the window, one navigation to
`http://localhost:3000/`, the connections of `destroy` on the window,
`close` on the view and, on the content manager,
`script-message-received::command`, the registration of the `command`
channel, and only then `gtk_widget_show` and `gtk_window_present`.  The view
is the only child of the window afterwards. -/
theorem activate_call_order (app data : Ptr) (w : World) :
    (activate app data w).callsSince w =
      [.gtk_application_window_new app (.widget w.next),
        .gtk_window_set_title (.widget w.next) "NPC",
        .gtk_window_set_default_size (.widget w.next) 800 600,
        .webkit_web_view_new (.widget (w.next + 1)),
        .gtk_window_set_child (.widget w.next) (.widget (w.next + 1)),
        .webkit_web_view_load_uri (.widget (w.next + 1))
          "http://localhost:3000/",
        .g_signal_connect (.widget w.next) "destroy" .destroyWindowCb .null,
        .g_signal_connect (.widget (w.next + 1)) "close" .closeWebViewCb
          (.widget w.next),
        .webkit_web_view_get_user_content_manager (.widget (w.next + 1))
          (.manager (w.next + 1)),
        .g_signal_connect (.manager (w.next + 1))
          "script-message-received::command" .handle_script_message .null,
        .webkit_user_content_manager_register_script_message_handler
          (.manager (w.next + 1)) "command" "main"] ++
      [.gtk_widget_show (.widget w.next),
        .gtk_window_present (.widget w.next)] ∧
    (activate app data w).children.filter
        (fun pc => decide (pc.1 = w.next)) = [(w.next, w.next + 1)] := by
  constructor
  · exact callsSince_of_calls_eq (congrArg World.calls (activate_eq app data w))
  · simp [activate_eq, List.filter_append, List.filter_filter]

end AppWrapper
